import Mathlib

/-!
Verification of the relevance-ranking and pagination logic of the
blog-platform backend, shallowly embedded from `routers/blogs.py` and
`routers/interests.py`.

Modelling conventions:
* A MongoDB document is a record whose possibly-missing fields are
  `Option`s; Python's `d.get(k, default)` becomes `Option.getD` and a
  direct subscript `d[k]` becomes a `match` that fails (Python `KeyError`)
  on `none`.  Object ids and timestamps are abstracted to `Nat`.
* Python `float` scores are modelled as exact rationals `ℚ`; the literals
  `0.8` and `0.2` become `8/10` and `2/10`.
* The functions `recommendation_service.calculate_content_similarity` and
  `recommendation_service.calculate_engagement_score` are imported by
  `routers/blogs.py` from a module that is not part of the repository
  snapshot; the ranking loop is therefore embedded parametrically in an
  arbitrary pair of scoring functions `cs`/`es`, and every property proved
  below holds for all choices of them.
-/

namespace BlogPlatform

/-- A raw blog document as the store returns it.  Field names follow the
keys used by `routers/blogs.py`; `oid` stands for the Mongo `_id` key. -/
structure BlogDoc where
  oid : Option Nat
  user_id : Option Nat
  title : Option String
  blog_body : Option String
  tag_ids : Option (List Nat)
  main_image_url : Option String
  published : Option Bool
  created_at : Option Nat
  updated_at : Option Nat
  likes_count : Option Nat
  comment_count : Option Nat
deriving DecidableEq, Repr

/-- The response dictionary built at `routers/blogs.py:351-362`
(`blog_response_data`): ids extracted with direct subscripts, the other
fields with defaulting `get` calls. -/
structure BlogResponseData where
  id : Nat
  user_id : Nat
  title : String
  blog_body : String
  tag_ids : List Nat
  main_image_url : Option String
  published : Bool
  created_at : Option Nat
  updated_at : Option Nat
  tags : List String
deriving DecidableEq, Repr

/-- `BlogRecommendationResponse` from `models.py`: a blog plus its
relevance score for one ranking invocation. -/
structure BlogRecommendationResponse where
  blog : BlogResponseData
  relevance_score : ℚ
deriving DecidableEq, Repr

/-- `tag_names_map.get(tag_id, '')` at `routers/blogs.py:334`: look a tag id
up in the id-to-name map built from `db.tags`, defaulting to the empty
string. -/
def tagNameLookup (tagMap : List (Nat × String)) (t : Nat) : String :=
  ((tagMap.find? (fun p => p.1 == t)).map Prod.snd).getD ""

/-- Python truthiness of the `user_interests` variable at
`routers/blogs.py:336`: `None` and the empty list are falsy, a non-empty
list is truthy. -/
def uiTruthy : Option (List String) → Bool
  | some l => !l.isEmpty
  | none => false

/-- One iteration of the scoring loop at `routers/blogs.py:333-368`:
compute `blog_tag_names`, blend the content-similarity and engagement
scores (interests present and non-empty) or fall back to the engagement
score alone, then build the response record.  The two direct subscripts
`blog["_id"]` and `blog["user_id"]` raise `KeyError` when the key is
missing, which aborts the whole request handler. -/
def processCandidate (cs : List String → String → String → List String → ℚ)
    (es : BlogDoc → ℚ) (tagMap : List (Nat × String))
    (ui : Option (List String)) (blog : BlogDoc) :
    Except String BlogRecommendationResponse :=
  let blog_tag_names := (blog.tag_ids.getD []).map (tagNameLookup tagMap)
  let total_score :=
    if uiTruthy ui then
      cs (ui.getD []) (blog.blog_body.getD "") (blog.title.getD "") blog_tag_names * (8/10)
        + es blog * (2/10)
    else
      es blog
  match blog.oid, blog.user_id with
  | none, _ => .error "KeyError: _id"
  | some _, none => .error "KeyError: user_id"
  | some i, some u =>
      .ok { blog := { id := i
                      user_id := u
                      title := blog.title.getD ""
                      blog_body := blog.blog_body.getD ""
                      tag_ids := blog.tag_ids.getD []
                      main_image_url := blog.main_image_url
                      published := blog.published.getD false
                      created_at := blog.created_at
                      updated_at := blog.updated_at
                      tags := blog_tag_names }
            relevance_score := total_score }

/-- The `for blog in all_matching_blogs` loop of `routers/blogs.py:333-368`:
candidates are processed in order and appended to `recommendations`; an
exception raised for any candidate aborts the whole pass. -/
def processCandidates (cs : List String → String → String → List String → ℚ)
    (es : BlogDoc → ℚ) (tagMap : List (Nat × String))
    (ui : Option (List String)) :
    List BlogDoc → Except String (List BlogRecommendationResponse)
  | [] => .ok []
  | b :: bs =>
    match processCandidate cs es tagMap ui b with
    | .error e => .error e
    | .ok r =>
      match processCandidates cs es tagMap ui bs with
      | .error e => .error e
      | .ok rs => .ok (r :: rs)

/-- Insertion step of Python's stable sort.
`recommendations.sort(key=lambda x: x.relevance_score, reverse=True)` at
`routers/blogs.py:371` orders by score descending and, being stable, keeps
elements with equal scores in their original order: an element passes over
exactly the earlier elements with a strictly greater score. -/
def insertByScoreDesc (a : BlogRecommendationResponse) :
    List BlogRecommendationResponse → List BlogRecommendationResponse
  | [] => [a]
  | b :: l =>
    if a.relevance_score < b.relevance_score then b :: insertByScoreDesc a l
    else a :: b :: l

/-- Python's stable descending sort by `relevance_score`
(`routers/blogs.py:371`), as a stable insertion sort. -/
def sortByScoreDesc : List BlogRecommendationResponse → List BlogRecommendationResponse
  | [] => []
  | a :: l => insertByScoreDesc a (sortByScoreDesc l)

/-- `PaginatedBlogsResponse` from `models.py`, element type generalised. -/
structure PaginatedBlogsResponse (α : Type) where
  blogs : List α
  total_count : Nat
  page : Nat
  page_size : Nat
  total_pages : Nat
deriving DecidableEq, Repr

/-- The pagination tail of `search_blogs` (`routers/blogs.py:373-387`) and,
identically, of `get_blogs` (`routers/blogs.py:89-98`):
`start_idx = (page - 1) * page_size`, the Python slice
`recommendations[start_idx:start_idx + page_size]`, and
`total_pages = (total_count + page_size - 1) // page_size`.  A Python slice
with non-negative bounds never raises, matching `drop`/`take`. -/
def pageSlice {α : Type} (page page_size : Nat) (recommendations : List α) : List α :=
  (recommendations.drop ((page - 1) * page_size)).take page_size

/-- The record `search_blogs` returns (`routers/blogs.py:381-387`),
assembled from the slice and the counts above. -/
def paginateRanked {α : Type} (page page_size : Nat) (recommendations : List α) :
    PaginatedBlogsResponse α :=
  let total_count := recommendations.length
  let total_pages := (total_count + page_size - 1) / page_size
  { blogs := pageSlice page page_size recommendations
    total_count := total_count
    page := page
    page_size := page_size
    total_pages := total_pages }

/-- `search_blogs` (`routers/blogs.py:331-387`) after the database reads:
score every candidate, sort by relevance descending, paginate. -/
def search_blogs (cs : List String → String → String → List String → ℚ)
    (es : BlogDoc → ℚ) (tagMap : List (Nat × String))
    (ui : Option (List String)) (page page_size : Nat)
    (candidates : List BlogDoc) :
    Except String (PaginatedBlogsResponse BlogRecommendationResponse) :=
  match processCandidates cs es tagMap ui candidates with
  | .error e => .error e
  | .ok recs => .ok (paginateRanked page page_size (sortByScoreDesc recs))

/-- The FastAPI query-parameter constraints of `search_blogs`
(`routers/blogs.py:290-291`) and `get_blogs` (`routers/blogs.py:64-65`):
`page: int = Query(1, ge=1)` and `page_size: int = Query(10, ge=1, le=100)`.
A violated constraint makes FastAPI reject the request with a 422
client-input error before the handler runs; accepted values reach the
handler unchanged. -/
def paginationParamsAccepted (page page_size : Int) : Bool :=
  decide (1 ≤ page) && (decide (1 ≤ page_size) && decide (page_size ≤ 100))

/-! ### User interests (`routers/interests.py`) -/

/-- A document of the `user_interests` collection, as inserted at
`routers/interests.py:38-43`. -/
structure InterestDoc where
  oid : Nat
  user_id : Nat
  interests : List String
  created_at : Nat
  updated_at : Nat
deriving DecidableEq, Repr

/-- Pydantic validation of `UserInterestsCreate` / `UserInterestsUpdate`
(`models.py:167-171`): `interests: List[str] = Field(..., min_items=1,
max_items=20)`.  No per-term constraint, no normalisation. -/
def userInterestsValid (interests : List String) : Bool :=
  decide (1 ≤ interests.length) && decide (interests.length ≤ 20)

/-- Mongo `update_one`: apply `f` to the first document matching `p`. -/
def updateFirst (p : InterestDoc → Bool) (f : InterestDoc → InterestDoc) :
    List InterestDoc → List InterestDoc
  | [] => []
  | d :: ds => if p d then f d :: ds else d :: updateFirst p f ds

/-- `create_user_interests` (`routers/interests.py:11-49`): if the user
already has an interests document, `$set` its `interests` array to the
submitted list and refresh `updated_at`; otherwise insert a new document
carrying the submitted list verbatim. -/
def create_user_interests (store : List InterestDoc) (uid : Nat)
    (interests : List String) (now newOid : Nat) : List InterestDoc :=
  match store.find? (fun d => d.user_id == uid) with
  | some _ =>
      updateFirst (fun d => d.user_id == uid)
        (fun d => { d with interests := interests, updated_at := now }) store
  | none =>
      store ++ [{ oid := newOid, user_id := uid, interests := interests,
                  created_at := now, updated_at := now }]

/-- `update_user_interests` (`routers/interests.py:69-96`): 404 when the
user has no interests document, otherwise `$set` the whole array to the
submitted list. -/
def update_user_interests (store : List InterestDoc) (uid : Nat)
    (interests : List String) (now : Nat) : Except String (List InterestDoc) :=
  match store.find? (fun d => d.user_id == uid) with
  | none => .error "404: User interests not found. Create interests first."
  | some _ =>
      .ok (updateFirst (fun d => d.user_id == uid)
        (fun d => { d with interests := interests, updated_at := now }) store)

/-- Mongo `$addToSet` on an array of strings: append the value unless an
equal element is already present.  Comparison is exact (case-sensitive). -/
def addToSet (l : List String) (t : String) : List String :=
  if t ∈ l then l else l ++ [t]

/-- `add_interest` (`routers/interests.py:98-120`): 404 when the user has
no interests document, otherwise `$addToSet` the single term. -/
def add_interest (store : List InterestDoc) (uid : Nat) (t : String)
    (now : Nat) : Except String (List InterestDoc) :=
  match store.find? (fun d => d.user_id == uid) with
  | none => .error "404: User interests not found. Create interests first."
  | some _ =>
      .ok (updateFirst (fun d => d.user_id == uid)
        (fun d => { d with interests := addToSet d.interests t, updated_at := now }) store)

/-! ### Blog deletion (`routers/blogs.py:252-285`) -/

/-- A document of the `comments` collection (`routers/comments.py:33-40`). -/
structure CommentDoc where
  oid : Nat
  blog_id : Nat
  user_id : Nat
  user_name : String
  text : String
  created_at : Nat
deriving DecidableEq, Repr

/-- A document of the `likes` collection (`routers/likes.py:52-57`). -/
structure LikeDoc where
  oid : Nat
  blog_id : Nat
  user_id : Nat
  created_at : Nat
deriving DecidableEq, Repr

/-- A document of the `images` collection (`routers/images.py`): image
metadata attached to a blog. -/
structure ImageDoc where
  oid : Nat
  blog_id : Nat
  image_url : String
deriving DecidableEq, Repr

/-- The collections `delete_blog` touches. -/
structure DB where
  blogs : List BlogDoc
  comments : List CommentDoc
  likes : List LikeDoc
  images : List ImageDoc
deriving DecidableEq, Repr

/-- Mongo `delete_one({"_id": blog_id})`: remove the first document whose
`_id` matches. -/
def eraseFirstBlog (blog_id : Nat) : List BlogDoc → List BlogDoc
  | [] => []
  | b :: bs => if b.oid == some blog_id then bs else b :: eraseFirstBlog blog_id bs

/-- `delete_blog` (`routers/blogs.py:252-285`): 404 when no blog has the
given id, 403 when the requester does not own it; otherwise
`delete_many({"blog_id": ...})` on `comments`, `likes` and `images`, then
`delete_one` on `blogs`.  The `ObjectId.is_valid` string-format check
precedes this and is not modelled (ids are abstract). -/
def delete_blog (db : DB) (blog_id : Nat) (current_user : Nat) : Except String DB :=
  match db.blogs.find? (fun b => b.oid == some blog_id) with
  | none => .error "404: Blog not found"
  | some existing_blog =>
    match existing_blog.user_id with
    | none => .error "KeyError: user_id"
    | some owner =>
      if owner ≠ current_user then
        .error "403: You don't have permission to delete this blog"
      else
        .ok { blogs := eraseFirstBlog blog_id db.blogs
              comments := db.comments.filter (fun c => !(c.blog_id == blog_id))
              likes := db.likes.filter (fun c => !(c.blog_id == blog_id))
              images := db.images.filter (fun c => !(c.blog_id == blog_id)) }

/-! ### Observers and concrete fixtures used by the theorems below -/

/-- The interests array `get_user_interests` (`routers/interests.py:51-67`)
would return for a user: `find_one({"user_id": uid})` projected to the
`interests` field. -/
def storedInterests (store : List InterestDoc) (uid : Nat) : Option (List String) :=
  (store.find? (fun d => d.user_id == uid)).map (fun d => d.interests)

/-- A concrete stand-in for `calculate_content_similarity`. -/
def csHalf : List String → String → String → List String → ℚ := fun _ _ _ _ => 1/2

/-- A concrete stand-in for `calculate_content_similarity`. -/
def csZero : List String → String → String → List String → ℚ := fun _ _ _ _ => 0

/-- A concrete stand-in for `calculate_engagement_score`. -/
def esQuarter : BlogDoc → ℚ := fun _ => 1/4

/-- A concrete stand-in for `calculate_engagement_score`. -/
def esZero : BlogDoc → ℚ := fun _ => 0

/-- A fully-populated blog document. -/
def goodDoc : BlogDoc :=
  { oid := some 1, user_id := some 7, title := some "A", blog_body := some "body",
    tag_ids := some [], main_image_url := none, published := some true,
    created_at := some 10, updated_at := some 10,
    likes_count := some 0, comment_count := some 0 }

/-- A blog document with the Mongo `_id` key missing. -/
def badDoc : BlogDoc := { goodDoc with oid := none }

/-- A blog document with every optional field missing. -/
def bareDoc : BlogDoc :=
  { oid := some 3, user_id := some 7, title := none, blog_body := none,
    tag_ids := none, main_image_url := none, published := none,
    created_at := none, updated_at := none, likes_count := none, comment_count := none }

/-- An earlier post (creation timestamp 10). -/
def oldDoc : BlogDoc := { goodDoc with oid := some 1, created_at := some 10 }

/-- A later post (creation timestamp 20). -/
def newDoc : BlogDoc := { goodDoc with oid := some 2, created_at := some 20 }

/-- What `processCandidate` makes of `oldDoc` under the constant-zero
scorers. -/
def recOld : BlogRecommendationResponse :=
  ⟨⟨1, 7, "A", "body", [], none, true, some 10, some 10, []⟩, 0⟩

/-- What `processCandidate` makes of `newDoc` under the constant-zero
scorers. -/
def recNew : BlogRecommendationResponse :=
  ⟨⟨2, 7, "A", "body", [], none, true, some 20, some 10, []⟩, 0⟩

/-- What `processCandidate` makes of `goodDoc` under `csHalf`/`esQuarter`
with interests `["t"]`. -/
def recGood : BlogRecommendationResponse :=
  ⟨⟨1, 7, "A", "body", [], none, true, some 10, some 10, []⟩,
    (1/2 : ℚ) * (8/10) + (1/4 : ℚ) * (2/10)⟩

/-- What `processCandidate` makes of `bareDoc` under the constant-zero
scorers and no interests. -/
def recBare : BlogRecommendationResponse :=
  ⟨⟨3, 7, "", "", [], none, false, none, none, []⟩, 0⟩

/-- Concrete comment fixtures: one on blog 1, one on blog 2. -/
def commentOn1 : CommentDoc := ⟨11, 1, 8, "u8", "hi", 3⟩

/-- A comment attached to blog 2. -/
def commentOn2 : CommentDoc := ⟨12, 2, 8, "u8", "yo", 4⟩

/-- A like attached to blog 1. -/
def likeOn1 : LikeDoc := ⟨21, 1, 9, 5⟩

/-- A like attached to blog 2. -/
def likeOn2 : LikeDoc := ⟨22, 2, 9, 6⟩

/-- An image attached to blog 1. -/
def imageOn1 : ImageDoc := ⟨31, 1, "a.png"⟩

/-- An image attached to blog 2. -/
def imageOn2 : ImageDoc := ⟨32, 2, "b.png"⟩

/-- A database holding blog 1 (owned by user 7) and records attached to
blogs 1 and 2. -/
def dbW : DB := ⟨[goodDoc], [commentOn1, commentOn2], [likeOn1, likeOn2], [imageOn1, imageOn2]⟩

/-- The database after user 7 deletes blog 1 from `dbW`. -/
def dbDeleted : DB := ⟨[], [commentOn2], [likeOn2], [imageOn2]⟩

/-! ## Supporting lemmas -/

/-- The relevance score attached to a successfully processed candidate is
exactly the blended score of `routers/blogs.py:336-348`. -/
lemma processCandidate_ok_score (cs : List String → String → String → List String → ℚ)
    (es : BlogDoc → ℚ) (tagMap : List (Nat × String)) (ui : Option (List String))
    (blog : BlogDoc) (r : BlogRecommendationResponse)
    (h : processCandidate cs es tagMap ui blog = .ok r) :
    r.relevance_score =
      if uiTruthy ui then
        cs (ui.getD []) (blog.blog_body.getD "") (blog.title.getD "")
            ((blog.tag_ids.getD []).map (tagNameLookup tagMap)) * (8/10)
          + es blog * (2/10)
      else es blog := by
  simp only [processCandidate] at h
  rcases hoid : blog.oid with _ | i
  · rw [hoid] at h; simp at h
  · rcases huid : blog.user_id with _ | u
    · rw [hoid, huid] at h; simp at h
    · rw [hoid, huid] at h
      simp only [Except.ok.injEq] at h
      subst h
      rfl

/-! ## Claims -/

/-- C1: in the ranking pass of `search_blogs`, a candidate processed with a
present, non-empty interest list gets relevance score
`0.8 * content-similarity + 0.2 * engagement`; with the interest list
absent (`None`) or empty, the score is the engagement score alone. -/
theorem relevance_score_blend (cs : List String → String → String → List String → ℚ)
    (es : BlogDoc → ℚ) (tagMap : List (Nat × String)) (blog : BlogDoc) :
    (∀ l r, l ≠ [] → processCandidate cs es tagMap (some l) blog = .ok r →
      r.relevance_score =
        8/10 * cs l (blog.blog_body.getD "") (blog.title.getD "")
            ((blog.tag_ids.getD []).map (tagNameLookup tagMap))
          + 2/10 * es blog)
    ∧ (∀ r, processCandidate cs es tagMap none blog = .ok r →
        r.relevance_score = es blog)
    ∧ (∀ r, processCandidate cs es tagMap (some []) blog = .ok r →
        r.relevance_score = es blog) := by
  refine ⟨?_, ?_, ?_⟩
  · intro l r hl h
    rw [processCandidate_ok_score cs es tagMap (some l) blog r h]
    have htr : uiTruthy (some l) = true := by
      cases l with
      | nil => exact absurd rfl hl
      | cons a as => rfl
    rw [if_pos htr]
    show cs l _ _ _ * (8/10) + es blog * (2/10) = _
    ring
  · intro r h
    rw [processCandidate_ok_score cs es tagMap none blog r h]
    rfl
  · intro r h
    rw [processCandidate_ok_score cs es tagMap (some []) blog r h]
    rfl

/-- C1 witness: the blend theorem applied to a concrete candidate and
concrete scorers. -/
theorem relevance_score_blend_witness :
    recGood.relevance_score =
      8/10 * csHalf ["t"] (goodDoc.blog_body.getD "") (goodDoc.title.getD "")
          ((goodDoc.tag_ids.getD []).map (tagNameLookup []))
        + 2/10 * esQuarter goodDoc :=
  (relevance_score_blend csHalf esQuarter [] goodDoc).1 ["t"] recGood
    (by decide) (by rfl)

/-- C3 counterexample: paginating an empty sequence with `page=1`,
`pageSize=10` yields `total_pages = 0`, not the claimed minimum of 1. -/
theorem total_pages_counterexample :
    (paginateRanked 1 10 ([] : List Nat)).blogs = [] ∧
    (paginateRanked 1 10 ([] : List Nat)).total_count = 0 ∧
    (paginateRanked 1 10 ([] : List Nat)).total_pages = 0 ∧
    (paginateRanked 1 10 ([] : List Nat)).total_pages ≠ 1 := by
  decide

/-- C3 amended: `total_pages` is exactly the ceiling of
`total_count / page_size` (0 when the result set is empty, with no minimum
of 1); paginating an empty sequence with `page=1`, `pageSize=10` returns an
empty slice, total count 0 and total pages 0. -/
theorem total_pages_ceil {α : Type} (page page_size : Nat) (l : List α)
    (h : 0 < page_size) :
    (paginateRanked page page_size l).total_pages = l.length ⌈/⌉ page_size ∧
    (∀ c, (paginateRanked page page_size l).total_pages ≤ c ↔
      l.length ≤ page_size * c) ∧
    (paginateRanked 1 10 ([] : List α)).blogs = [] ∧
    (paginateRanked 1 10 ([] : List α)).total_count = 0 ∧
    (paginateRanked 1 10 ([] : List α)).total_pages = 0 := by
  refine ⟨rfl, ?_, by norm_num [paginateRanked, pageSlice], by norm_num [paginateRanked],
    by norm_num [paginateRanked]⟩
  intro c
  rw [show (paginateRanked page page_size l).total_pages = l.length ⌈/⌉ page_size from rfl]
  exact ceilDiv_le_iff_le_mul h

/-- C3 witness: the amended theorem at `totalCount = 25`, `pageSize = 10`. -/
theorem total_pages_ceil_witness :
    (paginateRanked 3 10 (List.range 25)).total_pages = (List.range 25).length ⌈/⌉ 10 ∧
    (∀ c, (paginateRanked 3 10 (List.range 25)).total_pages ≤ c ↔
      (List.range 25).length ≤ 10 * c) ∧
    (paginateRanked 1 10 ([] : List Nat)).blogs = [] ∧
    (paginateRanked 1 10 ([] : List Nat)).total_count = 0 ∧
    (paginateRanked 1 10 ([] : List Nat)).total_pages = 0 :=
  total_pages_ceil 3 10 (List.range 25) (by decide)

/-- C5: requesting a page strictly beyond `total_pages` returns an empty
slice together with the unchanged total count and total page count; the
slice is total (Python slicing never raises). -/
theorem page_overflow_empty {α : Type} (page page_size : Nat) (l : List α)
    (h : 0 < page_size)
    (hp : (paginateRanked page page_size l).total_pages < page) :
    (paginateRanked page page_size l).blogs = [] ∧
    (paginateRanked page page_size l).total_count = l.length ∧
    (paginateRanked page page_size l).total_pages =
      (l.length + page_size - 1) / page_size := by
  refine ⟨?_, rfl, rfl⟩
  have hq : l.length ≤ page_size * ((l.length + page_size - 1) / page_size) := by
    have hd := Nat.div_add_mod (l.length + page_size - 1) page_size
    have hm := Nat.mod_lt (l.length + page_size - 1) h
    omega
  have h1 : (l.length + page_size - 1) / page_size ≤ page - 1 := by
    have hp' : (l.length + page_size - 1) / page_size < page := hp
    omega
  have hstart : l.length ≤ (page - 1) * page_size := by
    calc l.length ≤ page_size * ((l.length + page_size - 1) / page_size) := hq
      _ = ((l.length + page_size - 1) / page_size) * page_size := Nat.mul_comm _ _
      _ ≤ (page - 1) * page_size := Nat.mul_le_mul_right _ h1
  show pageSlice page page_size l = []
  unfold pageSlice
  rw [List.drop_eq_nil_of_le hstart]
  exact List.take_nil

/-- C5 witness: a one-element result set, `pageSize = 10`, page 2 of 1. -/
theorem page_overflow_empty_witness :
    (paginateRanked 2 10 [0]).blogs = [] ∧
    (paginateRanked 2 10 [0]).total_count = [0].length ∧
    (paginateRanked 2 10 [0]).total_pages = ([0].length + 10 - 1) / 10 :=
  page_overflow_empty 2 10 [0] (by decide) (by decide)

/-- C6 counterexample: `page = 1`, `pageSize = 101` violates neither
`page < 1` nor `pageSize < 1`, yet the query-parameter constraints reject
it (`le=100`). -/
theorem pagination_params_counterexample :
    paginationParamsAccepted 1 101 = false ∧
    ¬ ((1 : Int) < 1 ∨ (101 : Int) < 1) := by
  decide

/-- C6 amended: a call is rejected as a client-input error if and only if
`page < 1`, `pageSize < 1` or `pageSize > 100`; accepted values reach the
pagination code unclamped. -/
theorem pagination_params_iff :
    (∀ page page_size : Int, paginationParamsAccepted page page_size = false ↔
      page < 1 ∨ page_size < 1 ∨ 100 < page_size)
    ∧ (∀ (page page_size : Nat) (l : List Nat),
        (paginateRanked page page_size l).page = page ∧
        (paginateRanked page page_size l).page_size = page_size) := by
  constructor
  · intro page page_size
    simp only [paginationParamsAccepted, Bool.and_eq_false_iff, decide_eq_false_iff_not, not_le]
  · intro page page_size l
    exact ⟨rfl, rfl⟩

/-- C6 amended, witness: the rejection condition at concrete parameters. -/
theorem pagination_params_iff_witness :
    (paginationParamsAccepted 0 5 = false ↔
      (0 : Int) < 1 ∨ (5 : Int) < 1 ∨ 100 < (5 : Int)) ∧
    (paginateRanked 2 7 [3]).page = 2 ∧ (paginateRanked 2 7 [3]).page_size = 7 :=
  ⟨pagination_params_iff.1 0 5, pagination_params_iff.2 2 7 [3]⟩

/-- C8: a candidate with its identity fields present is processed
successfully even when `title`, `blog_body` or `tag_ids` is absent, each
missing field being treated as empty. -/
theorem optional_fields_defaulted (cs : List String → String → String → List String → ℚ)
    (es : BlogDoc → ℚ) (tagMap : List (Nat × String)) (ui : Option (List String))
    (blog : BlogDoc) (i u : Nat)
    (hoid : blog.oid = some i) (huid : blog.user_id = some u) :
    (∃ r, processCandidate cs es tagMap ui blog = .ok r) ∧
    ∀ r, processCandidate cs es tagMap ui blog = .ok r →
      (blog.title = none → r.blog.title = "") ∧
      (blog.blog_body = none → r.blog.blog_body = "") ∧
      (blog.tag_ids = none → r.blog.tag_ids = [] ∧ r.blog.tags = []) := by
  have hok : processCandidate cs es tagMap ui blog =
      .ok ⟨⟨i, u, blog.title.getD "", blog.blog_body.getD "", blog.tag_ids.getD [],
            blog.main_image_url, blog.published.getD false, blog.created_at,
            blog.updated_at, (blog.tag_ids.getD []).map (tagNameLookup tagMap)⟩,
          if uiTruthy ui then
            cs (ui.getD []) (blog.blog_body.getD "") (blog.title.getD "")
                ((blog.tag_ids.getD []).map (tagNameLookup tagMap)) * (8/10)
              + es blog * (2/10)
          else es blog⟩ := by
    simp only [processCandidate]
    rw [hoid, huid]
  refine ⟨⟨_, hok⟩, ?_⟩
  intro r h
  rw [hok] at h
  obtain rfl := Except.ok.inj h
  refine ⟨fun hnone => ?_, fun hnone => ?_, fun hnone => ?_⟩
  · simp [hnone]
  · simp [hnone]
  · simp [hnone]

/-- C8 witness: a candidate document missing every optional field is
processed into the all-defaults record. -/
theorem optional_fields_defaulted_witness :
    processCandidate csZero esZero [] none bareDoc = .ok recBare ∧
    recBare.blog.title = "" ∧ recBare.blog.blog_body = "" ∧
    recBare.blog.tag_ids = [] ∧ recBare.blog.tags = [] := by
  have h := (optional_fields_defaulted csZero esZero [] none bareDoc 3 7 rfl rfl).2
    recBare (by rfl)
  exact ⟨by rfl, h.1 rfl, h.2.1 rfl, (h.2.2 rfl).1, (h.2.2 rfl).2⟩

/-- C7 counterexample: a candidate set containing a record without the
Mongo `_id` key makes `search_blogs` abort with a `KeyError` instead of
skipping the record; no ranked result is produced for the remaining
candidate. -/
theorem malformed_candidate_counterexample :
    search_blogs csZero esZero [] none 1 10 [goodDoc, badDoc] =
      .error "KeyError: _id" := by
  rfl

/-- C7 amended: a candidate record missing the post id field makes the
whole ranking pass abort with an error; the record is not skipped and no
partial ranking is returned. -/
theorem missing_id_aborts (cs : List String → String → String → List String → ℚ)
    (es : BlogDoc → ℚ) (tagMap : List (Nat × String)) (ui : Option (List String))
    (docs : List BlogDoc) (d : BlogDoc)
    (hd : d ∈ docs) (hoid : d.oid = none) :
    ∃ e, processCandidates cs es tagMap ui docs = .error e := by
  induction docs with
  | nil => cases hd
  | cons b bs ih =>
    rcases List.mem_cons.mp hd with rfl | hmem
    · refine ⟨"KeyError: _id", ?_⟩
      have hb : processCandidate cs es tagMap ui d = .error "KeyError: _id" := by
        simp only [processCandidate]
        rw [hoid]
      simp [processCandidates, hb]
    · cases hb : processCandidate cs es tagMap ui b with
      | error e => exact ⟨e, by simp [processCandidates, hb]⟩
      | ok r =>
        obtain ⟨e, he⟩ := ih hmem
        exact ⟨e, by simp [processCandidates, hb, he]⟩

/-- C7 witness: the abort theorem at the concrete malformed candidate. -/
theorem missing_id_aborts_witness :
    ∃ e, processCandidates csZero esZero [] none [goodDoc, badDoc] = .error e :=
  missing_id_aborts csZero esZero [] none [goodDoc, badDoc] badDoc (by decide) rfl

/-- C2 counterexample: two candidates with identical relevance scores where
the older one precedes the newer one in the candidate list are returned
older-first: the sort at `routers/blogs.py:371` keys only on
`relevance_score` and, being stable, never consults `created_at`. -/
theorem tie_break_counterexample :
    search_blogs csZero esZero [] none 1 10 [oldDoc, newDoc] =
      .ok ⟨[recOld, recNew], 2, 1, 10, 1⟩ ∧
    recOld.relevance_score = recNew.relevance_score ∧
    recOld.blog.created_at = some 10 ∧ recNew.blog.created_at = some 20 := by
  refine ⟨by rfl, by rfl, rfl, rfl⟩

/-- Filtering an insertion by `insertByScoreDesc` to one fixed score value
either prepends the inserted element (when it carries that score) or
leaves the filtration unchanged. -/
lemma filter_insertByScoreDesc (a : BlogRecommendationResponse)
    (l : List BlogRecommendationResponse) (s : ℚ) :
    (insertByScoreDesc a l).filter (fun r => decide (r.relevance_score = s)) =
      if a.relevance_score = s then
        a :: l.filter (fun r => decide (r.relevance_score = s))
      else l.filter (fun r => decide (r.relevance_score = s)) := by
  induction l with
  | nil =>
    rw [insertByScoreDesc]
    by_cases has : a.relevance_score = s
    · simp [List.filter_cons, has]
    · simp [List.filter_cons, has]
  | cons b l ih =>
    rw [insertByScoreDesc]
    by_cases hab : a.relevance_score < b.relevance_score
    · rw [if_pos hab]
      by_cases hbs : b.relevance_score = s
      · have has : ¬ a.relevance_score = s := fun hc => by
          rw [hc, hbs] at hab
          exact lt_irrefl _ hab
        simp [List.filter_cons, hbs, has, ih]
      · simp [List.filter_cons, hbs, ih]
    · rw [if_neg hab]
      by_cases has : a.relevance_score = s
      · simp [List.filter_cons, has]
      · simp [List.filter_cons, has]

/-- Stability of the sort: filtering the sorted list to one fixed score
value gives the same sequence as filtering the input. -/
lemma sortByScoreDesc_filter (l : List BlogRecommendationResponse) (s : ℚ) :
    (sortByScoreDesc l).filter (fun r => decide (r.relevance_score = s)) =
      l.filter (fun r => decide (r.relevance_score = s)) := by
  induction l with
  | nil => rfl
  | cons a l ih =>
    rw [sortByScoreDesc, filter_insertByScoreDesc, ih]
    by_cases has : a.relevance_score = s
    · simp [List.filter_cons, has]
    · simp [List.filter_cons, has]

/-- Membership in an insertion. -/
lemma mem_insertByScoreDesc {x a : BlogRecommendationResponse}
    {l : List BlogRecommendationResponse} :
    x ∈ insertByScoreDesc a l ↔ x = a ∨ x ∈ l := by
  induction l with
  | nil => simp [insertByScoreDesc]
  | cons b l ih =>
    rw [insertByScoreDesc]
    by_cases hab : a.relevance_score < b.relevance_score
    · rw [if_pos hab]
      simp only [List.mem_cons, ih]
      tauto
    · rw [if_neg hab]
      simp only [List.mem_cons]

/-- Inserting into a descending list keeps it descending. -/
lemma pairwise_insertByScoreDesc (a : BlogRecommendationResponse)
    (l : List BlogRecommendationResponse)
    (h : l.Pairwise (fun x y => y.relevance_score ≤ x.relevance_score)) :
    (insertByScoreDesc a l).Pairwise
      (fun x y => y.relevance_score ≤ x.relevance_score) := by
  induction l with
  | nil => simp [insertByScoreDesc]
  | cons b l ih =>
    rw [insertByScoreDesc]
    rcases List.pairwise_cons.mp h with ⟨hb, hl⟩
    by_cases hab : a.relevance_score < b.relevance_score
    · rw [if_pos hab]
      refine List.pairwise_cons.mpr ⟨?_, ih hl⟩
      intro x hx
      rcases mem_insertByScoreDesc.mp hx with rfl | hxl
      · exact le_of_lt hab
      · exact hb x hxl
    · rw [if_neg hab]
      push_neg at hab
      refine List.pairwise_cons.mpr ⟨?_, h⟩
      intro x hx
      rcases List.mem_cons.mp hx with rfl | hxl
      · exact hab
      · exact le_trans (hb x hxl) hab

/-- C2 amended: the ranking sort orders by relevance score descending, and
candidates with identical scores keep their original candidate order (the
sort is stable); creation timestamps play no role in tie-breaking. -/
theorem sort_stable_ties :
    (∀ (l : List BlogRecommendationResponse) (s : ℚ),
      (sortByScoreDesc l).filter (fun r => decide (r.relevance_score = s)) =
        l.filter (fun r => decide (r.relevance_score = s)))
    ∧ ∀ l : List BlogRecommendationResponse,
        (sortByScoreDesc l).Pairwise
          (fun x y => y.relevance_score ≤ x.relevance_score) := by
  refine ⟨sortByScoreDesc_filter, ?_⟩
  intro l
  induction l with
  | nil => simp [sortByScoreDesc]
  | cons a l ih =>
    rw [sortByScoreDesc]
    exact pairwise_insertByScoreDesc a _ ih

/-- C2 amended, witness: stability at the concrete tied pair. -/
theorem sort_stable_ties_witness :
    (sortByScoreDesc [recOld, recNew]).filter (fun r => decide (r.relevance_score = 0)) =
      [recOld, recNew].filter (fun r => decide (r.relevance_score = 0)) :=
  sort_stable_ties.1 [recOld, recNew] 0

/-- C9 counterexample: creating interests with `["Tech", "tech", "Tech"]`
(a list pydantic accepts) stores the list verbatim: the stored term list
has an exact duplicate and mixes letter cases, so it is neither
deduplicated nor case-normalized. -/
theorem interests_not_normalized_counterexample :
    userInterestsValid ["Tech", "tech", "Tech"] = true ∧
    create_user_interests [] 1 ["Tech", "tech", "Tech"] 0 5 =
      [⟨5, 1, ["Tech", "tech", "Tech"], 0, 0⟩] ∧
    ¬ (["Tech", "tech", "Tech"] : List String).Nodup := by
  refine ⟨by decide, by rfl, by decide⟩

/-- `updateFirst` commutes with `find?` when the update preserves the
predicate. -/
lemma find?_updateFirst (p : InterestDoc → Bool) (f : InterestDoc → InterestDoc)
    (hf : ∀ d, p (f d) = p d) (store : List InterestDoc) :
    (updateFirst p f store).find? p = (store.find? p).map f := by
  induction store with
  | nil => rfl
  | cons d ds ih =>
    rw [updateFirst]
    by_cases hd : p d = true
    · rw [if_pos hd, List.find?_cons_of_pos _ (by rw [hf]; exact hd),
        List.find?_cons_of_pos _ hd]
      rfl
    · rw [if_neg hd, List.find?_cons_of_neg _ hd, List.find?_cons_of_neg _ hd, ih]

/-- When nothing in the first list matches, `find?` over an append looks in
the second list. -/
lemma find?_append_of_none {p : InterestDoc → Bool} {l1 l2 : List InterestDoc}
    (h : l1.find? p = none) : (l1 ++ l2).find? p = l2.find? p := by
  induction l1 with
  | nil => rfl
  | cons d ds ih =>
    by_cases hd : p d = true
    · rw [List.find?_cons_of_pos _ hd] at h
      cases h
    · rw [List.find?_cons_of_neg _ hd] at h
      rw [List.cons_append, List.find?_cons_of_neg _ hd]
      exact ih h

/-- C9 amended: interest-creation and whole-array update store the
submitted term list verbatim — no case-normalization and no
deduplication — while the single-term add uses `$addToSet`, which never
introduces an exact duplicate. -/
theorem interests_stored_verbatim :
    (∀ (store : List InterestDoc) (uid : Nat) (interests : List String) (now newOid : Nat),
      storedInterests (create_user_interests store uid interests now newOid) uid =
        some interests)
    ∧ (∀ (store : List InterestDoc) (uid : Nat) (interests : List String) (now : Nat)
        (res : List InterestDoc),
        update_user_interests store uid interests now = .ok res →
        storedInterests res uid = some interests)
    ∧ (∀ (l : List String) (t : String), l.Nodup → (addToSet l t).Nodup) := by
  refine ⟨?_, ?_, ?_⟩
  · intro store uid interests now newOid
    unfold create_user_interests storedInterests
    cases hfind : store.find? (fun d => d.user_id == uid) with
    | some d =>
      dsimp only
      rw [find?_updateFirst (fun d => d.user_id == uid)
        (fun d => { d with interests := interests, updated_at := now })
        (fun d => rfl) store, hfind]
      rfl
    | none =>
      dsimp only
      rw [find?_append_of_none hfind]
      simp [List.find?]
  · intro store uid interests now res h
    unfold update_user_interests at h
    cases hfind : store.find? (fun d => d.user_id == uid) with
    | none => rw [hfind] at h; simp at h
    | some d =>
      rw [hfind] at h
      simp only [Except.ok.injEq] at h
      subst h
      unfold storedInterests
      rw [find?_updateFirst (fun d => d.user_id == uid)
        (fun d => { d with interests := interests, updated_at := now })
        (fun d => rfl) store, hfind]
      rfl
  · intro l t h
    unfold addToSet
    by_cases ht : t ∈ l
    · rw [if_pos ht]; exact h
    · rw [if_neg ht]
      simp [List.nodup_append, h, ht]

/-- C9 amended, witness: the verbatim-store theorem and the `$addToSet`
no-duplicate theorem at concrete inputs. -/
theorem interests_stored_verbatim_witness :
    storedInterests (create_user_interests [] 1 ["a", "b"] 0 5) 1 = some ["a", "b"] ∧
    storedInterests [⟨5, 1, ["c"], 0, 2⟩] 1 = some ["c"] ∧
    (addToSet ["a"] "b").Nodup :=
  ⟨interests_stored_verbatim.1 [] 1 ["a", "b"] 0 5,
   interests_stored_verbatim.2.1 [⟨5, 1, ["a", "b"], 0, 0⟩] 1 ["c"] 2 _ (by rfl),
   interests_stored_verbatim.2.2 ["a"] "b" (by decide)⟩

/-- C10: when `delete_blog` succeeds, the surviving comments, likes and
images are exactly the original ones not attached to the deleted blog id:
every record of the blog is removed, and no record of another blog is. -/
theorem delete_blog_frame (db : DB) (blog_id current_user : Nat) (db' : DB)
    (h : delete_blog db blog_id current_user = .ok db') :
    (∀ c : CommentDoc, c ∈ db'.comments ↔ c ∈ db.comments ∧ c.blog_id ≠ blog_id) ∧
    (∀ c : LikeDoc, c ∈ db'.likes ↔ c ∈ db.likes ∧ c.blog_id ≠ blog_id) ∧
    (∀ c : ImageDoc, c ∈ db'.images ↔ c ∈ db.images ∧ c.blog_id ≠ blog_id) := by
  unfold delete_blog at h
  split at h
  · simp at h
  · split at h
    · simp at h
    · split at h
      · simp at h
      · simp only [Except.ok.injEq] at h
        subst h
        refine ⟨fun c => ?_, fun c => ?_, fun c => ?_⟩ <;>
          simp [List.mem_filter]

/-- Concatenating the `take page_size` chunks starting at every multiple of
`page_size` below the page count rebuilds the list; strong induction on the
list length, peeling one page at a time. -/
lemma range_join_take_drop {α : Type} (ps : Nat) (h : 0 < ps) :
    ∀ (n : Nat) (l : List α), l.length = n →
      ((List.range ((l.length + ps - 1) / ps)).map
          (fun i => (l.drop (i * ps)).take ps)).flatten = l := by
  intro n
  induction n using Nat.strong_induction_on with
  | _ n ih =>
    intro l hl
    rcases Nat.eq_zero_or_pos l.length with h0 | hpos
    · obtain rfl := List.length_eq_zero.mp h0
      simp
    · by_cases hle : l.length ≤ ps
      · have hq : (l.length + ps - 1) / ps = 1 :=
          Nat.div_eq_of_lt_le (by omega) (by omega)
        rw [hq]
        simp [List.range_succ, List.take_of_length_le hle]
      · push_neg at hle
        have hq : (l.length + ps - 1) / ps = ((l.drop ps).length + ps - 1) / ps + 1 := by
          rw [List.length_drop]
          have he : l.length + ps - 1 = (l.length - ps + ps - 1) + ps := by omega
          rw [he, Nat.add_div_right _ h]
        rw [hq, List.range_succ_eq_map]
        simp only [List.map_cons, List.flatten_cons, Nat.zero_mul, List.drop_zero, List.map_map]
        have hcomp : ((fun i => (l.drop (i * ps)).take ps) ∘ Nat.succ) =
            (fun i => ((l.drop ps).drop (i * ps)).take ps) := by
          funext i
          simp only [Function.comp_apply]
          rw [Nat.succ_mul, List.drop_drop, Nat.add_comm ps (i * ps)]
        rw [hcomp,
          ih ((l.drop ps).length) (by rw [List.length_drop]; omega) (l.drop ps) rfl]
        exact List.take_append_drop ps l

/-- C4: concatenating the slices of pages `1 .. total_pages` reproduces the
whole ranked sequence, with no duplicates and no omissions. -/
theorem pages_concat {α : Type} (page_size : Nat) (h : 0 < page_size) (l : List α) :
    ((List.range (paginateRanked 1 page_size l).total_pages).map
        (fun i => (paginateRanked (i + 1) page_size l).blogs)).flatten = l := by
  have hblogs : ∀ i : Nat, (paginateRanked (i + 1) page_size l).blogs =
      (l.drop (i * page_size)).take page_size := by
    intro i
    show pageSlice (i + 1) page_size l = _
    unfold pageSlice
    simp
  have hpages : (paginateRanked 1 page_size l).total_pages =
      (l.length + page_size - 1) / page_size := rfl
  simp only [hpages, hblogs]
  exact range_join_take_drop page_size h l.length l rfl

/-- C4 witness: the concatenation law at `totalCount = 25`,
`pageSize = 10`, including the page-3 scenario slice. -/
theorem pages_concat_witness :
    ((List.range (paginateRanked 1 10 (List.range 25)).total_pages).map
        (fun i => (paginateRanked (i + 1) 10 (List.range 25)).blogs)).flatten =
      List.range 25 ∧
    (paginateRanked 3 10 (List.range 25)).total_pages = 3 ∧
    (paginateRanked 3 10 (List.range 25)).blogs = [20, 21, 22, 23, 24] :=
  ⟨pages_concat 10 (by decide) (List.range 25), by decide, by decide⟩

/-- C10 witness: deleting blog 1 from the concrete database removes
exactly the records attached to blog 1. -/
theorem delete_blog_frame_witness :
    commentOn1 ∉ dbDeleted.comments ∧ commentOn2 ∈ dbDeleted.comments ∧
    likeOn1 ∉ dbDeleted.likes ∧ likeOn2 ∈ dbDeleted.likes ∧
    imageOn1 ∉ dbDeleted.images ∧ imageOn2 ∈ dbDeleted.images := by
  have h := delete_blog_frame dbW 1 7 dbDeleted (by rfl)
  refine ⟨?_, ?_, ?_, ?_, ?_, ?_⟩
  · intro hm
    exact ((h.1 commentOn1).mp hm).2 rfl
  · exact (h.1 commentOn2).mpr ⟨by decide, by decide⟩
  · intro hm
    exact ((h.2.1 likeOn1).mp hm).2 rfl
  · exact (h.2.1 likeOn2).mpr ⟨by decide, by decide⟩
  · intro hm
    exact ((h.2.2 imageOn1).mp hm).2 rfl
  · exact (h.2.2 imageOn2).mpr ⟨by decide, by decide⟩

end BlogPlatform
